import Mathlib

/-!
Shallow embedding of the emoji-reaction module (src/main.js): the reaction
cache, the reconciliation operations (toggleReaction, the realtime change
handler, the full reload) and the identity resolver, together with theorems
settling the frozen claims about them.

Modelling conventions:
- A ReactionRecord mirrors a row of the remote reactions table; ids are Nat
  (the server-assigned uuid is only ever compared for equality and freshness).
- The remote table is carried in the state as a list of records; each remote
  operation (query, insert, delete) either succeeds against that list or fails,
  and whether it fails on a given call is an input flag in Env, mirroring the
  fact that the JS code receives success or an error from the service.
- Browser inputs (connection flag, the studentName input field, the prompt
  dialog result) are further fields of Env.
- The JS functions return true or false; toggleReaction additionally shows one
  of two distinct success messages, so its result is embedded as an inductive
  ToggleResult whose toggled and removed constructors are the two success
  outcomes (both mapped to the JS value true by ToggleResult.toBool) and whose
  remaining constructors are the distinct false-returning exits.
-/

/-- A row of the reactions table (columns documented at src/main.js:5-11). -/
structure ReactionRecord where
  id : Nat
  mood_id : String
  user_name : String
  reaction_type : String
  created_at : Nat
deriving Repr, DecidableEq

/-- The module-level mutable state of src/main.js: the local cache
(variable reactions, line 13), the session identity (currentUserName,
line 14, initially the empty string), together with the modelled remote
table contents and the generator for fresh server-assigned ids. -/
structure EngineState where
  reactions : List ReactionRecord
  currentUserName : String
  remote : List ReactionRecord
  nextId : Nat
deriving Repr, DecidableEq

/-- Per-call environment: the connection flag checked at src/main.js:36, the
value of the studentName input field (none when the element is missing or
empty), the result of the prompt dialog (none when cancelled), whether each
of the three remote operations fails on this call, and the server clock used
for the created_at column of an insert. -/
structure Env where
  connected : Bool
  nameInput : Option String
  promptResult : Option String
  queryFails : Bool
  deleteFails : Bool
  insertFails : Bool
  now : Nat
deriving Repr

/-- Executable model of the JS String.prototype.trim used throughout the
code: strips whitespace characters from both ends of the string. -/
def jsTrim (s : String) : String :=
  ⟨((s.data.dropWhile Char.isWhitespace).reverse.dropWhile Char.isWhitespace).reverse⟩

/-- The three-column match used both by the existence query of
findExistingReaction (src/main.js:163-166) and by hasUserReacted
(src/main.js:241-245). -/
def matchesTriple (r : ReactionRecord) (moodId userName reactionType : String) : Bool :=
  r.mood_id == moodId && r.user_name == userName && r.reaction_type == reactionType

/-- Embeds getCurrentUserName (src/main.js:252-264): returns the cached
identity when non-empty; otherwise reads the studentName input, and when its
trimmed value is non-empty caches and returns it; otherwise null. The second
component is the updated module state (the function can write
currentUserName). -/
def getCurrentUserName (st : EngineState) (nameInput : Option String) :
    Option String × EngineState :=
  if st.currentUserName ≠ "" then (some st.currentUserName, st)
  else
    match nameInput with
    | some v =>
        if jsTrim v ≠ "" then (some (jsTrim v), { st with currentUserName := jsTrim v })
        else (none, st)
    | none => (none, st)

/-- Embeds setCurrentUserName (src/main.js:266-269): stores the given value
into currentUserName unconditionally, with no validation and no trimming. -/
def setCurrentUserName (st : EngineState) (userName : String) : EngineState :=
  { st with currentUserName := userName }

/-- Error kind of the identity contract in the spec. -/
inductive NameError where
  | InvalidName
deriving Repr, DecidableEq

/-- Modelled from the spec (section 4.1), for comparison with the code:
setUserName(name) fails with InvalidName if the trimmed length is below 2 and
otherwise stores the trimmed value. The code (setCurrentUserName) has no such
behaviour; this definition exists only to exhibit the difference. -/
def setUserNameSpec (st : EngineState) (name : String) :
    Except NameError EngineState :=
  if (jsTrim name).length < 2 then Except.error NameError.InvalidName
  else Except.ok { st with currentUserName := jsTrim name }

/-- Embeds findExistingReaction (src/main.js:159-179): a remote query filtered
on the triple with limit 1, returning the first row or null when empty. The
catch block at lines 175-178 returns null on a remote error, so a failed query
is indistinguishable from an empty result. -/
def findExistingReaction (remote : List ReactionRecord)
    (moodId userName reactionType : String) (queryFails : Bool) :
    Option ReactionRecord :=
  if queryFails then none
  else (remote.filter (fun r => matchesTriple r moodId userName reactionType)).head?

/-- The canonical record the modelled remote service creates for an insert:
the server assigns the next fresh id and the current timestamp
(src/main.js:103-106, insert followed by select). -/
def freshRecord (st : EngineState) (moodId userName reactionType : String)
    (now : Nat) : ReactionRecord :=
  { id := st.nextId, mood_id := moodId, user_name := userName,
    reaction_type := reactionType, created_at := now }

/-- Embeds addReaction (src/main.js:95-126): a remote insert with the
server-assigned id and timestamp; on success the canonical row is pushed onto
the cache; on a remote error the function throws before touching the cache. -/
def addReaction (st : EngineState) (moodId reactionType userName : String)
    (insertFails : Bool) (now : Nat) : Except Unit EngineState :=
  if insertFails then Except.error ()
  else
    Except.ok { st with
      remote := st.remote ++ [freshRecord st moodId userName reactionType now],
      reactions := st.reactions ++ [freshRecord st moodId userName reactionType now],
      nextId := st.nextId + 1 }

/-- Embeds removeReaction (src/main.js:131-154): a remote delete by id; on
success the cache is filtered by id; on a remote error the function throws
before touching the cache. -/
def removeReaction (st : EngineState) (reactionId : Nat) (deleteFails : Bool) :
    Except Unit EngineState :=
  if deleteFails then Except.error ()
  else Except.ok { st with
    remote := st.remote.filter (fun r => r.id != reactionId),
    reactions := st.reactions.filter (fun r => r.id != reactionId) }

/-- Embeds the identity-resolution block of toggleReaction
(src/main.js:48-59) for the case where no (truthy) userName argument was
passed: try getCurrentUserName; when that yields null, prompt, and fail unless
the prompt result has trimmed length at least 2, in which case the trimmed
value is stored via setCurrentUserName. -/
def resolveAbsentUserName (st : EngineState) (env : Env) :
    Option String × EngineState :=
  match getCurrentUserName st env.nameInput with
  | (some u, st1) => (some u, st1)
  | (none, st1) =>
      match env.promptResult with
      | none => (none, st1)
      | some p =>
          if (jsTrim p).length < 2 then (none, st1)
          else (some (jsTrim p), setCurrentUserName st1 (jsTrim p))

/-- Resolution of the effective userName in toggleReaction: a passed argument
is used as-is when truthy (non-empty); a null or empty argument triggers the
resolution block of lines 48-59. -/
def resolveUserName (st : EngineState) (env : Env) (userName : Option String) :
    Option String × EngineState :=
  match userName with
  | some u => if u = "" then resolveAbsentUserName st env else (some u, st)
  | none => resolveAbsentUserName st env

/-- Result of toggleReaction. The constructors toggled and removed are the two
success exits (distinguished in the JS by their success messages, lines 71 and
78; both return true); the other constructors are the false-returning exits:
the connection guard (line 36-40), the missing-moodId guard (line 42-45), the
unresolvable-identity exit (line 52-55) and the caught remote error (line
85-89, also reached when a mutation helper throws). -/
inductive ToggleResult where
  | toggled
  | removed
  | notConnected
  | missingMoodId
  | missingIdentity
  | failed
deriving Repr, DecidableEq

/-- The JS boolean actually returned by toggleReaction. -/
def ToggleResult.toBool : ToggleResult → Bool
  | ToggleResult.toggled => true
  | ToggleResult.removed => true
  | _ => false

/-- Embeds toggleReaction (src/main.js:35-90): guard on connection and moodId,
resolve the effective userName, query for an existing matching row, then
either delete it (removed) or insert a fresh row (toggled); a thrown remote
error is caught and yields false with whatever cache state the helpers left
(the helpers only mutate after remote success, so the state of the failed
branch is the pre-mutation state). -/
def toggleReaction (st : EngineState) (env : Env) (moodId reactionType : String)
    (userName : Option String) : ToggleResult × EngineState :=
  if env.connected = false then (ToggleResult.notConnected, st)
  else if moodId = "" then (ToggleResult.missingMoodId, st)
  else
    match resolveUserName st env userName with
    | (none, st1) => (ToggleResult.missingIdentity, st1)
    | (some u, st1) =>
        match findExistingReaction st1.remote moodId u reactionType env.queryFails with
        | some existing =>
            match removeReaction st1 existing.id env.deleteFails with
            | Except.ok st2 => (ToggleResult.removed, st2)
            | Except.error _ => (ToggleResult.failed, st1)
        | none =>
            match addReaction st1 moodId reactionType u env.insertFails env.now with
            | Except.ok st2 => (ToggleResult.toggled, st2)
            | Except.error _ => (ToggleResult.failed, st1)

/-- Embeds loadReactionsFromSupabase (src/main.js:184-211): when connected and
the remote query succeeds, the cache is replaced wholesale with the remote
collection ordered by created_at descending; otherwise (guard at 185-188, or
the catch at 208-210) the cache is left unchanged. The order-by clause of the
remote service is modelled with insertion sort on the descending created_at
relation. -/
def orderByCreatedAtDesc (l : List ReactionRecord) : List ReactionRecord :=
  List.insertionSort (fun a b => b.created_at ≤ a.created_at) l

def loadReactionsFromSupabase (st : EngineState) (connected queryFails : Bool) :
    EngineState :=
  if connected = false then st
  else if queryFails then st
  else { st with reactions := orderByCreatedAtDesc st.remote }

/-- Embeds getReactionsForMood (src/main.js:216-218). -/
def getReactionsForMood (cache : List ReactionRecord) (moodId : String) :
    List ReactionRecord :=
  cache.filter (fun r => r.mood_id == moodId)

/-- Embeds countReactionsByType (src/main.js:223-232): folds over the
reactions of the mood, incrementing the tally of each reaction type; the
returned counts object is embedded as a total function defaulting to 0. -/
def countReactionsByType (cache : List ReactionRecord) (moodId : String) :
    String → Nat :=
  (getReactionsForMood cache moodId).foldl
    (fun counts r => fun t =>
      if t == r.reaction_type then counts r.reaction_type + 1 else counts t)
    (fun _ => 0)

/-- Embeds hasUserReacted (src/main.js:237-246): with a falsy userName it
falls back to getCurrentUserName (which may cache the input-field value);
with no resolvable name it returns false; otherwise it is a membership test
on the cache. The second component is the updated module state. -/
def hasUserReacted (st : EngineState) (nameInput : Option String)
    (moodId : String) (userName : Option String) (reactionType : String) :
    Bool × EngineState :=
  let provided : Option String :=
    match userName with
    | some u => if u = "" then none else some u
    | none => none
  match provided with
  | some u =>
      (st.reactions.any (fun r => matchesTriple r moodId u reactionType), st)
  | none =>
      match getCurrentUserName st nameInput with
      | (some u, st1) =>
          (st1.reactions.any (fun r => matchesTriple r moodId u reactionType), st1)
      | (none, st1) => (false, st1)

/-- Embeds the realtime change handler installed by setupReactionsRealtime
(src/main.js:427-464): an INSERT event pushes the new row onto the cache
unconditionally (line 440, no duplicate check); a DELETE event filters the
cache by the deleted id (line 454). -/
inductive RealtimeEvent where
  | insertEvent (record : ReactionRecord)
  | deleteEvent (oldId : Nat)
deriving Repr, DecidableEq

def applyRemoteEvent (cache : List ReactionRecord) (e : RealtimeEvent) :
    List ReactionRecord :=
  match e with
  | RealtimeEvent.insertEvent r => cache ++ [r]
  | RealtimeEvent.deleteEvent oldId => cache.filter (fun r => r.id != oldId)

/-! Concrete fixtures used by counterexamples and witnesses. -/

/-- A cached reaction row used by several concrete statements. -/
def rec0 : ReactionRecord :=
  { id := 1, mood_id := "post1", user_name := "Alice", reaction_type := "L",
    created_at := 0 }

/-- The initial module state: empty cache, empty identity (src/main.js:13-14),
with an empty modelled remote table. -/
def st0 : EngineState :=
  { reactions := [], currentUserName := "", remote := [], nextId := 1 }

/-- A state whose cache and remote table agree and hold exactly rec0. -/
def stA : EngineState :=
  { reactions := [rec0], currentUserName := "Alice", remote := [rec0], nextId := 2 }

/-- An environment where every remote operation succeeds. -/
def envOk : Env :=
  { connected := true, nameInput := none, promptResult := none,
    queryFails := false, deleteFails := false, insertFails := false, now := 5 }

/-- An environment where the existence query fails and everything else
succeeds. -/
def envQueryFail : Env := { envOk with queryFails := true }

/-- An environment where the delete fails and everything else succeeds. -/
def envDeleteFail : Env := { envOk with deleteFails := true }

/-- An environment where the insert fails and everything else succeeds. -/
def envInsertFail : Env := { envOk with insertFails := true }

/-- A sequence of sequential awaited toggleReaction calls for one fixed triple,
folded over the module state, one environment per call. -/
def toggleSequence (st : EngineState) (envs : List Env) (p t n : String) :
    EngineState :=
  envs.foldl (fun s e => (toggleReaction s e p t (some n)).2) st

/-- The per-triple reconciliation invariant: cache and remote table coincide
and at most one cached record matches the triple. -/
def TripleInvariant (st : EngineState) (p n t : String) : Prop :=
  st.remote = st.reactions ∧
  (st.reactions.filter (fun r => matchesTriple r p n t)).length ≤ 1

/-- The descending created_at relation used by the full reload is total. -/
instance : IsTotal ReactionRecord (fun a b => b.created_at ≤ a.created_at) :=
  ⟨fun a b => Nat.le_total b.created_at a.created_at⟩

/-- The descending created_at relation used by the full reload is transitive. -/
instance : IsTrans ReactionRecord (fun a b => b.created_at ≤ a.created_at) :=
  ⟨fun _ _ _ hab hbc => Nat.le_trans hbc hab⟩

/-! Claim C1: idempotence of remote event application. -/

/-- C1 counterexample: with rec0 already in the cache, delivering the INSERT
event carrying rec0 appends a second copy instead of appending nothing, so the
cache after the repeated delivery differs from the cache after one delivery. -/
theorem c1_counterexample :
    applyRemoteEvent [rec0] (RealtimeEvent.insertEvent rec0) = [rec0, rec0] ∧
    ([rec0, rec0] : List ReactionRecord) ≠ [rec0] :=
  ⟨rfl, by decide⟩

/-- C1 (amended): the DELETE half of the claim holds — delivering a DELETE
event whose id matches no cached record leaves the cache unchanged, and
delivering the same DELETE twice leaves the cache as one delivery does — but
an INSERT event appends its record unconditionally, with no
duplicate-suppression by id. -/
theorem c1_event_application (cache : List ReactionRecord) (i : Nat)
    (r : ReactionRecord) (h : ∀ s ∈ cache, s.id ≠ i) :
    applyRemoteEvent cache (RealtimeEvent.deleteEvent i) = cache ∧
    applyRemoteEvent (applyRemoteEvent cache (RealtimeEvent.deleteEvent i))
        (RealtimeEvent.deleteEvent i)
      = applyRemoteEvent cache (RealtimeEvent.deleteEvent i) ∧
    applyRemoteEvent cache (RealtimeEvent.insertEvent r) = cache ++ [r] := by
  refine ⟨?_, ?_, rfl⟩
  · simp only [applyRemoteEvent]
    apply List.filter_eq_self.mpr
    intro a ha
    simpa using h a ha
  · simp [applyRemoteEvent, List.filter_filter]

/-- Witness for c1_event_application at a concrete cache, id and record. -/
theorem c1_event_application_witness :
    applyRemoteEvent [rec0] (RealtimeEvent.deleteEvent 7) = [rec0] ∧
    applyRemoteEvent (applyRemoteEvent [rec0] (RealtimeEvent.deleteEvent 7))
        (RealtimeEvent.deleteEvent 7)
      = applyRemoteEvent [rec0] (RealtimeEvent.deleteEvent 7) ∧
    applyRemoteEvent [rec0] (RealtimeEvent.insertEvent rec0) = [rec0] ++ [rec0] :=
  c1_event_application [rec0] 7 rec0 (by decide)

/-! Claim C3: setUserName validation. -/

/-- C3 counterexample: on the input string of a space, the letter a and a
space (trimmed length 1 < 2) the code neither fails nor rejects —
setCurrentUserName succeeds and stores the raw untrimmed string, while the
specified setUserName fails with InvalidName; and even on a valid input the
stored value is the untrimmed original rather than the trimmed value. -/
theorem c3_counterexample :
    (setCurrentUserName st0 " a ").currentUserName = " a " ∧
    (jsTrim " a ").length < 2 ∧
    setUserNameSpec st0 " a " = Except.error NameError.InvalidName ∧
    (setCurrentUserName st0 " ab ").currentUserName = " ab " ∧
    jsTrim " ab " = "ab" :=
  ⟨rfl, by decide, rfl, rfl, by decide⟩

/-- C3 (amended): setCurrentUserName stores the given value exactly as passed,
unconditionally overwriting any prior identity and leaving the cache and the
remote table untouched; no InvalidName failure and no trimming happen there
(length validation and trimming occur only at its call site in the prompt flow
of toggleReaction). -/
theorem c3_stores_unconditionally (st : EngineState) (name : String) :
    (setCurrentUserName st name).currentUserName = name ∧
    (setCurrentUserName st name).reactions = st.reactions ∧
    (setCurrentUserName st name).remote = st.remote :=
  ⟨rfl, rfl, rfl⟩

/-! Claim C10: missing moodId guard. -/

/-- C10: toggleReaction with an empty (falsy) moodId fails immediately — the
result maps to the JS return value false — and the entire state is returned
unchanged: cache, stored identity and remote table all as before, since the
guard precedes identity resolution and every remote operation (when
disconnected, the earlier connection guard fails the call the same way). -/
theorem c10_missing_moodId (st : EngineState) (env : Env) (reactionType : String)
    (userName : Option String) :
    (toggleReaction st env "" reactionType userName).1.toBool = false ∧
    (toggleReaction st env "" reactionType userName).2 = st := by
  cases hc : env.connected with
  | false => simp [toggleReaction, hc, ToggleResult.toBool]
  | true => simp [toggleReaction, hc, ToggleResult.toBool]

/-! Helper lemmas shared by several claims. -/

/-- getCurrentUserName can write only currentUserName: cache, remote table and
id generator are untouched. -/
theorem getCurrentUserName_state (st : EngineState) (nameInput : Option String) :
    (getCurrentUserName st nameInput).2.reactions = st.reactions ∧
    (getCurrentUserName st nameInput).2.remote = st.remote ∧
    (getCurrentUserName st nameInput).2.nextId = st.nextId := by
  unfold getCurrentUserName
  repeat' split
  all_goals exact ⟨rfl, rfl, rfl⟩

/-- The prompt-and-validate fallback can write only currentUserName. -/
theorem resolveAbsentUserName_state (st : EngineState) (env : Env) :
    (resolveAbsentUserName st env).2.reactions = st.reactions ∧
    (resolveAbsentUserName st env).2.remote = st.remote ∧
    (resolveAbsentUserName st env).2.nextId = st.nextId := by
  unfold resolveAbsentUserName
  rcases hg : getCurrentUserName st env.nameInput with ⟨o, st1⟩
  have hst1 := getCurrentUserName_state st env.nameInput
  rw [hg] at hst1
  rcases o with _ | u
  · rcases env.promptResult with _ | p
    · exact hst1
    · dsimp only
      split
      · exact hst1
      · exact hst1
  · exact hst1

/-- Identity resolution in toggleReaction can write only currentUserName. -/
theorem resolveUserName_state (st : EngineState) (env : Env) (u : Option String) :
    (resolveUserName st env u).2.reactions = st.reactions ∧
    (resolveUserName st env u).2.remote = st.remote ∧
    (resolveUserName st env u).2.nextId = st.nextId := by
  unfold resolveUserName
  rcases u with _ | u
  · exact resolveAbsentUserName_state st env
  · dsimp only
    split
    · exact resolveAbsentUserName_state st env
    · exact ⟨rfl, rfl, rfl⟩

/-- Every failed exit of toggleReaction (a caught remote error from the delete
or the insert) leaves the cache and the remote table exactly as before the
call: the mutation helpers only mutate after remote success. -/
theorem toggle_failed_state (st : EngineState) (env : Env) (moodId rt : String)
    (u : Option String)
    (h : (toggleReaction st env moodId rt u).1 = ToggleResult.failed) :
    (toggleReaction st env moodId rt u).2.reactions = st.reactions ∧
    (toggleReaction st env moodId rt u).2.remote = st.remote := by
  have hres := resolveUserName_state st env u
  by_cases hc : env.connected = false
  · simp [toggleReaction, hc] at h
  · by_cases hm : moodId = ""
    · simp [toggleReaction, hc, hm] at h
    · rcases hr : resolveUserName st env u with ⟨o, st1⟩
      rw [hr] at hres
      rcases o with _ | name
      · simp [toggleReaction, hc, hm, hr] at h
      · rcases hf : findExistingReaction st1.remote moodId name rt env.queryFails
            with _ | ex
        · rcases ha : addReaction st1 moodId rt name env.insertFails env.now
              with e | st2
          · simp only [toggleReaction, hc, hm, hr, hf, ha, if_neg hc, if_neg hm]
            exact ⟨hres.1, hres.2.1⟩
          · simp [toggleReaction, hc, hm, hr, hf, ha] at h
        · rcases hd : removeReaction st1 ex.id env.deleteFails with e | st2
          · simp only [toggleReaction, hc, hm, hr, hf, hd, if_neg hc, if_neg hm]
            exact ⟨hres.1, hres.2.1⟩
          · simp [toggleReaction, hc, hm, hr, hf, hd] at h

/-! Claim C2: remote failures and the cache. -/

/-- C2 counterexample: in stA the cache and remote table agree and a record
matching the triple exists; the existence query fails (envQueryFail), yet
toggleReaction does not return a failed result: the failure is treated as
no-record-found, a new record is inserted, the call returns the success result
toggled (JS value true) and the cache is mutated. -/
theorem c2_counterexample :
    (toggleReaction stA envQueryFail "post1" "L" (some "Alice")).1
      = ToggleResult.toggled ∧
    (toggleReaction stA envQueryFail "post1" "L" (some "Alice")).1.toBool
      = true ∧
    (toggleReaction stA envQueryFail "post1" "L" (some "Alice")).2.reactions
      ≠ stA.reactions :=
  ⟨rfl, rfl, by decide⟩

/-- C2 (amended): when the delete-by-id fails on a found record, or the
insert fails when no record was found, toggleReaction returns the failed
result (JS value false) and both cache and remote table are exactly as before
the call; in general every failed exit leaves cache and remote unchanged; a
failed existence query, however, is not surfaced as a failure: it is treated
as no-record-found, toggleReaction proceeds to the insert, and when that
insert succeeds the call returns the success result toggled with a fresh
record appended to the cache. -/
theorem c2_remote_error_handling (st : EngineState) (moodId rt n : String)
    (hm : moodId ≠ "") (hn : n ≠ "") :
    (∀ env : Env, env.connected = true → env.queryFails = false →
      env.deleteFails = true →
      ∀ ex, findExistingReaction st.remote moodId n rt false = some ex →
      (toggleReaction st env moodId rt (some n)).1 = ToggleResult.failed ∧
      (toggleReaction st env moodId rt (some n)).2.reactions = st.reactions ∧
      (toggleReaction st env moodId rt (some n)).2.remote = st.remote) ∧
    (∀ env : Env, env.connected = true → env.queryFails = false →
      env.insertFails = true →
      findExistingReaction st.remote moodId n rt false = none →
      (toggleReaction st env moodId rt (some n)).1 = ToggleResult.failed ∧
      (toggleReaction st env moodId rt (some n)).2.reactions = st.reactions ∧
      (toggleReaction st env moodId rt (some n)).2.remote = st.remote) ∧
    (∀ (env : Env) (u : Option String),
      (toggleReaction st env moodId rt u).1 = ToggleResult.failed →
      (toggleReaction st env moodId rt u).2.reactions = st.reactions ∧
      (toggleReaction st env moodId rt u).2.remote = st.remote) ∧
    (∀ env : Env, env.connected = true → env.queryFails = true →
      env.insertFails = false →
      (toggleReaction st env moodId rt (some n)).1 = ToggleResult.toggled ∧
      (toggleReaction st env moodId rt (some n)).2.reactions
        = st.reactions ++ [freshRecord st moodId n rt env.now]) := by
  refine ⟨?_, ?_, ?_, ?_⟩
  · intro env hc hq hd ex hex
    refine ⟨?_, ?_, ?_⟩ <;>
      simp [toggleReaction, resolveUserName, hc, hm, hn, hq, hex,
        removeReaction, hd]
  · intro env hc hq hi hnone
    refine ⟨?_, ?_, ?_⟩ <;>
      simp [toggleReaction, resolveUserName, hc, hm, hn, hq, hnone,
        addReaction, hi]
  · intro env u h
    exact toggle_failed_state st env moodId rt u h
  · intro env hc hq hi
    refine ⟨?_, ?_⟩ <;>
      simp [toggleReaction, resolveUserName, hc, hm, hn,
        findExistingReaction, hq, addReaction, hi]

/-- Witness for c2_remote_error_handling, instantiated so that every conjunct
is exercised: a failing delete on a state holding the record, a failing insert
on the empty state, the general failed exit at a reachable failed call, and a
failing query followed by a successful insert. -/
theorem c2_remote_error_handling_witness :
    ((toggleReaction stA envDeleteFail "post1" "L" (some "Alice")).1
        = ToggleResult.failed ∧
     (toggleReaction stA envDeleteFail "post1" "L" (some "Alice")).2.reactions
        = stA.reactions ∧
     (toggleReaction stA envDeleteFail "post1" "L" (some "Alice")).2.remote
        = stA.remote) ∧
    ((toggleReaction st0 envInsertFail "post1" "L" (some "Alice")).1
        = ToggleResult.failed ∧
     (toggleReaction st0 envInsertFail "post1" "L" (some "Alice")).2.reactions
        = st0.reactions ∧
     (toggleReaction st0 envInsertFail "post1" "L" (some "Alice")).2.remote
        = st0.remote) ∧
    ((toggleReaction stA envDeleteFail "post1" "L" (some "Alice")).2.reactions
        = stA.reactions ∧
     (toggleReaction stA envDeleteFail "post1" "L" (some "Alice")).2.remote
        = stA.remote) ∧
    ((toggleReaction stA envQueryFail "post1" "L" (some "Alice")).1
        = ToggleResult.toggled ∧
     (toggleReaction stA envQueryFail "post1" "L" (some "Alice")).2.reactions
        = stA.reactions ++ [freshRecord stA "post1" "Alice" "L"
            envQueryFail.now]) :=
  ⟨(c2_remote_error_handling stA "post1" "L" "Alice" (by decide)
      (by decide)).1 envDeleteFail rfl rfl rfl rec0 rfl,
   (c2_remote_error_handling st0 "post1" "L" "Alice" (by decide)
      (by decide)).2.1 envInsertFail rfl rfl rfl rfl,
   (c2_remote_error_handling stA "post1" "L" "Alice" (by decide)
      (by decide)).2.2.1 envDeleteFail (some "Alice") rfl,
   (c2_remote_error_handling stA "post1" "L" "Alice" (by decide)
      (by decide)).2.2.2 envQueryFail rfl rfl rfl⟩


/-- When connected, with truthy moodId and userName, a successful query that
finds no matching record and a successful insert, toggleReaction returns
toggled and appends the canonical fresh record to cache and remote table. -/
theorem toggle_insert_case (st : EngineState) (env : Env) (p t n : String)
    (hc : env.connected = true) (hm : p ≠ "") (hn : n ≠ "")
    (hq : env.queryFails = false) (hi : env.insertFails = false)
    (hnone : st.remote.filter (fun r => matchesTriple r p n t) = []) :
    toggleReaction st env p t (some n) =
      (ToggleResult.toggled,
        { st with
          reactions := st.reactions ++ [freshRecord st p n t env.now],
          remote := st.remote ++ [freshRecord st p n t env.now],
          nextId := st.nextId + 1 }) := by
  simp [toggleReaction, resolveUserName, hc, hm, hn, findExistingReaction, hq,
    hnone, addReaction, hi]

/-- When connected, with truthy moodId and userName, a successful query whose
first matching record is ex and a successful delete, toggleReaction returns
removed and filters ex.id out of cache and remote table. -/
theorem toggle_remove_case (st : EngineState) (env : Env) (p t n : String)
    (ex : ReactionRecord)
    (hc : env.connected = true) (hm : p ≠ "") (hn : n ≠ "")
    (hq : env.queryFails = false) (hd : env.deleteFails = false)
    (hfound : (st.remote.filter (fun r => matchesTriple r p n t)).head?
        = some ex) :
    toggleReaction st env p t (some n) =
      (ToggleResult.removed,
        { st with
          reactions := st.reactions.filter (fun r => r.id != ex.id),
          remote := st.remote.filter (fun r => r.id != ex.id) }) := by
  simp [toggleReaction, resolveUserName, hc, hm, hn, findExistingReaction, hq,
    hfound, removeReaction, hd]

/-- The fresh record of an insert for the triple matches that triple. -/
theorem freshRecord_matches (st : EngineState) (p n t : String) (now : Nat) :
    matchesTriple (freshRecord st p n t now) p n t = true := by
  simp [matchesTriple, freshRecord]

/-! Claim C4: toggle symmetry. -/

/-- C4 counterexample: stA is a state where cache and remote table agree and
every remote operation succeeds (envOk), but a record matching the triple is
already cached, so the first of the two calls returns removed, not toggled. -/
theorem c4_counterexample :
    stA.remote = stA.reactions ∧
    (toggleReaction stA envOk "post1" "L" (some "Alice")).1
      = ToggleResult.removed ∧
    ToggleResult.removed ≠ ToggleResult.toggled :=
  ⟨rfl, rfl, by decide⟩

/-- C4 (amended): when additionally no cached record matches the triple before
the first call, two sequential fully successful toggleReaction calls return
toggled then removed, and cache membership for the triple is true after the
first call and false after the second. -/
theorem c4_toggle_symmetry (st : EngineState) (env1 env2 : Env) (p t n : String)
    (hagree : st.remote = st.reactions)
    (habsent : ∀ r ∈ st.reactions, matchesTriple r p n t = false)
    (hc1 : env1.connected = true) (hq1 : env1.queryFails = false)
    (hi1 : env1.insertFails = false)
    (hc2 : env2.connected = true) (hq2 : env2.queryFails = false)
    (hd2 : env2.deleteFails = false)
    (hm : p ≠ "") (hn : n ≠ "") :
    (toggleReaction st env1 p t (some n)).1 = ToggleResult.toggled ∧
    ((toggleReaction st env1 p t (some n)).2.reactions.any
        (fun r => matchesTriple r p n t)) = true ∧
    (toggleReaction (toggleReaction st env1 p t (some n)).2 env2 p t
        (some n)).1 = ToggleResult.removed ∧
    ((toggleReaction (toggleReaction st env1 p t (some n)).2 env2 p t
        (some n)).2.reactions.any (fun r => matchesTriple r p n t)) = false := by
  have hfilr : st.remote.filter (fun r => matchesTriple r p n t) = [] := by
    rw [hagree]
    exact List.filter_eq_nil_iff.mpr (fun a ha => by simp [habsent a ha])
  have h1 := toggle_insert_case st env1 p t n hc1 hm hn hq1 hi1 hfilr
  have hmatch := freshRecord_matches st p n t env1.now
  have hfil2 : (st.remote ++ [freshRecord st p n t env1.now]).filter
        (fun r => matchesTriple r p n t)
      = [freshRecord st p n t env1.now] := by
    rw [List.filter_append, hfilr]
    simp [hmatch]
  have hhead : ((st.remote ++ [freshRecord st p n t env1.now]).filter
        (fun r => matchesTriple r p n t)).head?
      = some (freshRecord st p n t env1.now) := by
    rw [hfil2]
    rfl
  have h2 := toggle_remove_case
    { st with
      reactions := st.reactions ++ [freshRecord st p n t env1.now],
      remote := st.remote ++ [freshRecord st p n t env1.now],
      nextId := st.nextId + 1 }
    env2 p t n (freshRecord st p n t env1.now)
    hc2 hm hn hq2 hd2 hhead
  refine ⟨by rw [h1], ?_, ?_, ?_⟩
  · rw [h1]
    simp [List.any_append, hmatch]
  · rw [h1, h2]
  · rw [h1, h2]
    apply List.any_eq_false.mpr
    intro x hx
    simp only [List.mem_filter, List.mem_append, List.mem_singleton] at hx
    rcases hx with ⟨hx1 | hx2, hid⟩
    · simp [habsent x hx1]
    · subst hx2
      simp [freshRecord] at hid

/-- Witness for c4_toggle_symmetry at the initial state and a fully
successful environment. -/
theorem c4_toggle_symmetry_witness :
    (toggleReaction st0 envOk "post1" "L" (some "Alice")).1
      = ToggleResult.toggled ∧
    ((toggleReaction st0 envOk "post1" "L" (some "Alice")).2.reactions.any
        (fun r => matchesTriple r "post1" "Alice" "L")) = true ∧
    (toggleReaction (toggleReaction st0 envOk "post1" "L" (some "Alice")).2
        envOk "post1" "L" (some "Alice")).1 = ToggleResult.removed ∧
    ((toggleReaction (toggleReaction st0 envOk "post1" "L" (some "Alice")).2
        envOk "post1" "L" (some "Alice")).2.reactions.any
        (fun r => matchesTriple r "post1" "Alice" "L")) = false :=
  c4_toggle_symmetry st0 envOk envOk "post1" "L" "Alice" rfl
    (by simp [st0]) rfl rfl rfl rfl rfl rfl (by decide) (by decide)


/-- A single toggleReaction call whose existence query succeeds preserves the
per-triple invariant, whatever the outcome of the call (failed mutations leave
cache and remote table unchanged; a successful delete only removes records; a
successful insert appends one record into a state whose matching records for
the inserted triple were just observed to be none). -/
theorem toggle_preserves_invariant (st : EngineState) (e : Env) (p t n : String)
    (hq : e.queryFails = false) (hinv : TripleInvariant st p n t) :
    TripleInvariant (toggleReaction st e p t (some n)).2 p n t := by
  obtain ⟨hagree, huniq⟩ := hinv
  by_cases hc : e.connected = false
  · simpa [toggleReaction, hc, TripleInvariant] using ⟨hagree, huniq⟩
  · by_cases hm : p = ""
    · subst hm
      simpa [toggleReaction, hc, TripleInvariant] using ⟨hagree, huniq⟩
    · rcases hr : resolveUserName st e (some n) with ⟨o, st1⟩
      have hres := resolveUserName_state st e (some n)
      rw [hr] at hres
      obtain ⟨hre, hrm, _⟩ := hres
      have hagree1 : st1.remote = st1.reactions := by rw [hre, hrm]; exact hagree
      have huniq1 : (st1.reactions.filter
          (fun r => matchesTriple r p n t)).length ≤ 1 := by
        rw [hre]; exact huniq
      rcases o with _ | u
      · simp only [toggleReaction, if_neg hc, if_neg hm, hr]
        exact ⟨hagree1, huniq1⟩
      · rcases hf : findExistingReaction st1.remote p u t e.queryFails
            with _ | ex
        · have hfil1 : st1.remote.filter (fun r => matchesTriple r p u t)
              = [] := by
            have hf2 := hf
            simp only [findExistingReaction, hq, Bool.false_eq_true,
              if_false] at hf2
            exact List.head?_eq_none_iff.mp hf2
          cases hi : e.insertFails with
          | true =>
              simp only [toggleReaction, if_neg hc, if_neg hm, hr, hf,
                addReaction, hi, if_true]
              exact ⟨hagree1, huniq1⟩
          | false =>
              simp only [toggleReaction, if_neg hc, if_neg hm, hr, hf,
                addReaction, hi, Bool.false_eq_true, if_false,
                TripleInvariant]
              refine ⟨by rw [hagree1], ?_⟩
              rw [List.filter_append]
              cases hmatch : matchesTriple (freshRecord st1 p u t e.now) p n t
                  with
              | false =>
                  have hnil : [freshRecord st1 p u t e.now].filter
                      (fun r => matchesTriple r p n t) = [] := by
                    simp [hmatch]
                  rw [hnil, List.append_nil]
                  exact huniq1
              | true =>
                  have hun : u = n := by
                    simpa [matchesTriple, freshRecord] using hmatch
                  have hzero : st1.reactions.filter
                      (fun r => matchesTriple r p n t) = [] := by
                    rw [← hagree1, ← hun]
                    exact hfil1
                  rw [hzero, List.nil_append]
                  simpa using List.length_filter_le _ _
        · cases hd : e.deleteFails with
          | true =>
              simp only [toggleReaction, if_neg hc, if_neg hm, hr, hf,
                removeReaction, hd, if_true]
              exact ⟨hagree1, huniq1⟩
          | false =>
              simp only [toggleReaction, if_neg hc, if_neg hm, hr, hf,
                removeReaction, hd, Bool.false_eq_true, if_false,
                TripleInvariant]
              refine ⟨by rw [hagree1], ?_⟩
              have hcomm : (st1.reactions.filter
                    (fun r => r.id != ex.id)).filter
                      (fun r => matchesTriple r p n t)
                  = (st1.reactions.filter
                      (fun r => matchesTriple r p n t)).filter
                        (fun r => r.id != ex.id) := by
                rw [List.filter_filter, List.filter_filter]
                congr 1
                funext a
                exact Bool.and_comm _ _
              calc ((st1.reactions.filter (fun r => r.id != ex.id)).filter
                    (fun r => matchesTriple r p n t)).length
                  = ((st1.reactions.filter
                      (fun r => matchesTriple r p n t)).filter
                        (fun r => r.id != ex.id)).length := by rw [hcomm]
                _ ≤ (st1.reactions.filter
                      (fun r => matchesTriple r p n t)).length :=
                    List.length_filter_le _ _
                _ ≤ 1 := huniq1

/-! Claim C5: per-triple uniqueness across sequential toggle sequences. -/

/-- C5 counterexample: stA satisfies the uniqueness invariant (exactly one
cached record matches the triple) and the remote table agrees with the cache,
yet the sequence consisting of a single toggleReaction call whose existence
query fails leaves two matching records in the cache: the failed query is
treated as no-record-found and a duplicate is inserted. -/
theorem c5_counterexample :
    stA.remote = stA.reactions ∧
    (stA.reactions.filter
        (fun r => matchesTriple r "post1" "Alice" "L")).length ≤ 1 ∧
    ((toggleSequence stA [envQueryFail] "post1" "L" "Alice").reactions.filter
        (fun r => matchesTriple r "post1" "Alice" "L")).length = 2 :=
  ⟨rfl, by decide, by decide⟩

/-- C5 (amended): over any sequence of sequential awaited toggleReaction calls
for one fixed triple in which every existence query succeeds, starting from a
cache satisfying the uniqueness invariant with an agreeing remote table, the
cache never holds more than one record matching the triple at any observation
point (after any prefix of the sequence); the mutations themselves are free to
fail. -/
theorem c5_uniqueness (p t n : String) (envs : List Env)
    (henv : ∀ e ∈ envs, e.queryFails = false)
    (st : EngineState)
    (hagree : st.remote = st.reactions)
    (huniq : (st.reactions.filter
        (fun r => matchesTriple r p n t)).length ≤ 1) :
    ∀ k, ((toggleSequence st (envs.take k) p t n).reactions.filter
        (fun r => matchesTriple r p n t)).length ≤ 1 := by
  suffices h : ∀ (es : List Env), (∀ e ∈ es, e.queryFails = false) →
      ∀ (s : EngineState), TripleInvariant s p n t →
      ∀ k, TripleInvariant (toggleSequence s (es.take k) p t n) p n t by
    intro k
    exact (h envs henv st ⟨hagree, huniq⟩ k).2
  intro es
  induction es with
  | nil =>
      intro _ s hs k
      simpa [toggleSequence] using hs
  | cons e es ih =>
      intro hok s hs k
      cases k with
      | zero => simpa [toggleSequence] using hs
      | succ k =>
          have hstep := toggle_preserves_invariant s e p t n
            (hok e (List.mem_cons_self e es)) hs
          have hrec := ih (fun x hx => hok x (List.mem_cons_of_mem e hx))
            (toggleReaction s e p t (some n)).2 hstep k
          simpa [toggleSequence, List.take_succ_cons, List.foldl_cons]
            using hrec

/-- Witness for c5_uniqueness: a two-call all-success sequence starting from
stA, observed after both calls. -/
theorem c5_uniqueness_witness :
    (((toggleSequence stA ([envOk, envOk].take 2) "post1" "L" "Alice").reactions).filter
        (fun r => matchesTriple r "post1" "Alice" "L")).length ≤ 1 :=
  c5_uniqueness "post1" "L" "Alice" [envOk, envOk]
    (by
      intro e he
      rcases List.mem_cons.mp he with h | h
      · subst h; rfl
      · rcases List.mem_cons.mp h with h2 | h2
        · subst h2; rfl
        · cases h2)
    stA rfl (by decide) 2

/-! Claim C6: full reload replaces the cache wholesale. -/

/-- C6: a successful loadReactionsFromSupabase (connected, query succeeds)
replaces the cache wholesale with the remote collection ordered by created_at
descending: the new cache is sorted descending by created_at; for every
postId the reactions returned for that post are a permutation of (exactly the
collection of) the remote records for that post; and a record is cached after
the call if and only if it is present remotely, so records cached before the
call do not survive unless present remotely. -/
theorem c6_load_replaces_cache (st : EngineState) :
    (loadReactionsFromSupabase st true false).reactions
      = orderByCreatedAtDesc st.remote ∧
    List.Sorted (fun a b : ReactionRecord => b.created_at ≤ a.created_at)
      (loadReactionsFromSupabase st true false).reactions ∧
    (∀ p, (getReactionsForMood
        (loadReactionsFromSupabase st true false).reactions p).Perm
        (getReactionsForMood st.remote p)) ∧
    (∀ r, r ∈ (loadReactionsFromSupabase st true false).reactions ↔
        r ∈ st.remote) := by
  have hload : (loadReactionsFromSupabase st true false).reactions
      = orderByCreatedAtDesc st.remote := by
    simp [loadReactionsFromSupabase]
  have hperm : (orderByCreatedAtDesc st.remote).Perm st.remote :=
    List.perm_insertionSort _ _
  refine ⟨hload, ?_, ?_, ?_⟩
  · rw [hload]
    exact List.sorted_insertionSort _ _
  · intro p
    rw [hload]
    simpa [getReactionsForMood] using hperm.filter _
  · intro r
    rw [hload]
    exact hperm.mem_iff

/-! Claim C7: unresolvable identity fails the call before any remote work. -/

/-- C7: with no userName argument, an empty stored identity, no non-empty
name-input value and no prompt result of trimmed length at least 2,
toggleReaction takes the missing-identity exit (JS value false) before the
try block, so no remote operation is performed: the remote table and the
cache are both returned unchanged. -/
theorem c7_missing_identity (st : EngineState) (env : Env) (moodId rt : String)
    (hcur : st.currentUserName = "")
    (hinput : ∀ v, env.nameInput = some v → jsTrim v = "")
    (hprompt : ∀ pr, env.promptResult = some pr → (jsTrim pr).length < 2)
    (hc : env.connected = true) (hm : moodId ≠ "") :
    (toggleReaction st env moodId rt none).1 = ToggleResult.missingIdentity ∧
    (toggleReaction st env moodId rt none).1.toBool = false ∧
    (toggleReaction st env moodId rt none).2.reactions = st.reactions ∧
    (toggleReaction st env moodId rt none).2.remote = st.remote := by
  have hres : resolveUserName st env none = (none, st) := by
    unfold resolveUserName resolveAbsentUserName getCurrentUserName
    rcases hni : env.nameInput with _ | v
    · rcases hpr : env.promptResult with _ | pr
      · simp [hcur]
      · simp [hcur, hprompt pr hpr]
    · have hv := hinput v hni
      rcases hpr : env.promptResult with _ | pr
      · simp [hcur, hv]
      · simp [hcur, hv, hprompt pr hpr]
  refine ?_
  simp [toggleReaction, hc, hm, hres, ToggleResult.toBool]

/-- Witness for c7_missing_identity: initial state, connected environment with
no input value and a cancelled prompt. -/
theorem c7_missing_identity_witness :
    (toggleReaction st0 envOk "post1" "L" none).1
      = ToggleResult.missingIdentity ∧
    (toggleReaction st0 envOk "post1" "L" none).1.toBool = false ∧
    (toggleReaction st0 envOk "post1" "L" none).2.reactions = st0.reactions ∧
    (toggleReaction st0 envOk "post1" "L" none).2.remote = st0.remote :=
  c7_missing_identity st0 envOk "post1" "L" rfl
    (by intro v hv; simp [envOk] at hv)
    (by intro pr hpr; simp [envOk] at hpr)
    rfl (by decide)

/-- The tally fold of countReactionsByType, read at one reaction type, counts
exactly the records of that type. -/
theorem countFold_eq (l : List ReactionRecord) (counts : String → Nat)
    (t : String) :
    (l.foldl (fun counts r => fun s =>
        if s == r.reaction_type then counts r.reaction_type + 1 else counts s)
      counts) t
      = counts t + (l.filter (fun r => r.reaction_type == t)).length := by
  induction l generalizing counts with
  | nil => simp
  | cons r l ih =>
      rw [List.foldl_cons, ih]
      by_cases h : r.reaction_type = t
      · subst h
        simp [List.filter_cons]
        omega
      · have h1 : (t == r.reaction_type) = false :=
          beq_eq_false_iff_ne.mpr (Ne.symm h)
        have h2 : (r.reaction_type == t) = false :=
          beq_eq_false_iff_ne.mpr h
        simp [h1, h2, List.filter_cons]

/-- countReactionsByType read at a type equals the number of records of that
type among the reactions of the mood. -/
theorem countReactionsByType_eq (cache : List ReactionRecord)
    (moodId t : String) :
    countReactionsByType cache moodId t
      = ((getReactionsForMood cache moodId).filter
          (fun r => r.reaction_type == t)).length := by
  unfold countReactionsByType
  rw [countFold_eq]
  simp

/-! Claim C8: the empty-cache toggle scenario and the tally contract. -/

/-- C8: from the empty cache with a fully successful environment,
toggleReaction for post1 with the thumbs-up reaction by Alice returns toggled;
afterwards countReactionsByType maps the thumbs-up type to 1 and every other
type to 0, and hasUserReacted for the triple returns true; in general
countReactionsByType tallies exactly the records returned by
getReactionsForMood, grouped by reaction type. -/
theorem c8_scenario :
    (toggleReaction st0 envOk "post1" "👍" (some "Alice")).1
      = ToggleResult.toggled ∧
    countReactionsByType
      (toggleReaction st0 envOk "post1" "👍" (some "Alice")).2.reactions
      "post1" "👍" = 1 ∧
    (∀ t, t ≠ "👍" →
      countReactionsByType
        (toggleReaction st0 envOk "post1" "👍" (some "Alice")).2.reactions
        "post1" t = 0) ∧
    (hasUserReacted (toggleReaction st0 envOk "post1" "👍" (some "Alice")).2
        none "post1" (some "Alice") "👍").1 = true ∧
    (∀ cache moodId t, countReactionsByType cache moodId t
        = ((getReactionsForMood cache moodId).filter
            (fun r => r.reaction_type == t)).length) := by
  have hcache : (toggleReaction st0 envOk "post1" "👍" (some "Alice")).2.reactions
      = [{ id := 1, mood_id := "post1", user_name := "Alice",
           reaction_type := "👍", created_at := 5 }] := by decide
  refine ⟨rfl, ?_, ?_, ?_, fun cache moodId t => countReactionsByType_eq _ _ _⟩
  · rw [hcache]
    decide
  · intro t ht
    rw [hcache, countReactionsByType_eq]
    have h1 : (("👍" : String) == t) = false :=
      beq_eq_false_iff_ne.mpr (Ne.symm ht)
    simp [getReactionsForMood, h1]
  · rw [show (hasUserReacted
        (toggleReaction st0 envOk "post1" "👍" (some "Alice")).2
        none "post1" (some "Alice") "👍").1
      = ((toggleReaction st0 envOk "post1" "👍" (some "Alice")).2.reactions.any
          (fun r => matchesTriple r "post1" "Alice" "👍")) from rfl, hcache]
    decide

/-- Witness for c8_scenario: the other-type count read at a concrete other
reaction type. -/
theorem c8_scenario_witness :
    countReactionsByType
      (toggleReaction st0 envOk "post1" "👍" (some "Alice")).2.reactions
      "post1" "L" = 0 :=
  c8_scenario.2.2.1 "L" (by decide)

/-! Claim C9: hasUserReacted is a pure membership test. -/

/-- C9: with a provided (truthy) userName, hasUserReacted returns true exactly
when some cached record matches postId, userName and reactionType, and it
returns the whole state unchanged; for every userName argument it leaves the
cache unchanged (only currentUserName can be written, by the identity
fallback); and with no argument, an empty stored identity and no non-empty
input value it returns false. -/
theorem c9_membership (st : EngineState) (nameInput : Option String)
    (moodId rt u : String) (hu : u ≠ "") :
    ((hasUserReacted st nameInput moodId (some u) rt).1 = true ↔
      ∃ r, r ∈ st.reactions ∧ matchesTriple r moodId u rt = true) ∧
    (hasUserReacted st nameInput moodId (some u) rt).2 = st ∧
    (∀ un : Option String,
      (hasUserReacted st nameInput moodId un rt).2.reactions = st.reactions) ∧
    (st.currentUserName = "" → (∀ v, nameInput = some v → jsTrim v = "") →
      (hasUserReacted st nameInput moodId none rt).1 = false) := by
  refine ⟨?_, ?_, ?_, ?_⟩
  · simp [hasUserReacted, hu, List.any_eq_true]
  · simp [hasUserReacted, hu]
  · intro un
    rcases un with _ | v
    · unfold hasUserReacted
      rcases hg : getCurrentUserName st nameInput with ⟨o, st1⟩
      have hst1 := (getCurrentUserName_state st nameInput).1
      rw [hg] at hst1
      rcases o with _ | w
      · simpa [hg] using hst1
      · simpa [hg] using hst1
    · by_cases hv : v = ""
      · subst hv
        unfold hasUserReacted
        rcases hg : getCurrentUserName st nameInput with ⟨o, st1⟩
        have hst1 := (getCurrentUserName_state st nameInput).1
        rw [hg] at hst1
        rcases o with _ | w
        · simpa [hg] using hst1
        · simpa [hg] using hst1
      · simp [hasUserReacted, hv]
  · intro hcur hinput
    have hg : getCurrentUserName st nameInput = (none, st) := by
      unfold getCurrentUserName
      rcases hni : nameInput with _ | v
      · simp [hcur]
      · simp [hcur, hinput v hni]
    simp [hasUserReacted, hg]

/-- Witness for c9_membership at a concrete state where Alice has reacted. -/
theorem c9_membership_witness :
    ((hasUserReacted stA none "post1" (some "Alice") "L").1 = true ↔
      ∃ r, r ∈ stA.reactions ∧ matchesTriple r "post1" "Alice" "L" = true) ∧
    (hasUserReacted stA none "post1" (some "Alice") "L").2 = stA ∧
    (∀ un : Option String,
      (hasUserReacted stA none "post1" un "L").2.reactions = stA.reactions) ∧
    (stA.currentUserName = "" → (∀ v, (none : Option String) = some v →
        jsTrim v = "") →
      (hasUserReacted stA none "post1" none "L").1 = false) :=
  c9_membership stA none "post1" "L" "Alice" (by decide)
